import Mathlib

/-!
Verification development for the FastTurtle robot core (`src/robot.cpp`,
`src/include/world.h`): a differential-drive robot (`TurtlebotBurger`) with a
rotating rangefinder (`Lidar`).

Modelling conventions:
* C++ `float` arithmetic is embedded as exact arithmetic over an arbitrary
  `LinearOrderedField R` (concrete evaluations use `ℚ`).
* Code of the repository that is not under `src/` (the trigonometric library
  functions, `normalize_angle`, `distance_between_points`, the obstacle
  intersection routine `intersects_line`, and the configuration macros
  `TO_RAD`, `N_LASERS`, `MIN_DISTANCE`, `MAX_DISTANCE`) is gathered into an
  `Env` record of abstract parameters; theorems quantify over the whole
  record, so they hold for every faithful instantiation of the missing code.
* Mutation of C++ member fields becomes explicit state passing: each member
  function takes the object and returns the updated object.
-/

namespace FastTurtle

variable {R : Type}

/-- A 2D point, mirroring the C++ `Point2d` geometry primitive. -/
structure Point2d (R : Type) where
  x : R
  y : R
  deriving DecidableEq, Repr

/-- A line segment given by its two endpoints, mirroring the C++ `Line`
(constructed via `Line(x1,y1,x2,y2)` and mutated via `set_points`). -/
structure Line (R : Type) where
  x1 : R
  y1 : R
  x2 : R
  y2 : R
  deriving DecidableEq, Repr

/-- A round obstacle: a circle with center `(xc, yc)` and a radius,
mirroring the C++ `RoundObstacle` (a `Circle`). -/
structure RoundObstacle (R : Type) where
  xc : R
  yc : R
  radius : R
  deriving DecidableEq, Repr

/-- Environment of code external to `src/`: the math-library functions
(`cos`, `sin`), the repository helpers declared in headers not present under
`src/` (`normalize_angle`, `distance_between_points`,
`RoundObstacle::intersects_line`), and the configuration macros (`TO_RAD`,
`N_LASERS`, `MIN_DISTANCE`, `MAX_DISTANCE`).  `intersects_line` returns the
C++ `std::tuple<bool,float,float,float,float>` of a found flag and two
candidate intersection points. -/
structure Env (R : Type) where
  cos : R → R
  sin : R → R
  normalize_angle : R → R
  distance_between_points : R → R → R → R → R
  intersects_line : RoundObstacle R → Line R → Bool × R × R × R × R
  TO_RAD : R
  N_LASERS : Nat
  MIN_DISTANCE : R
  MAX_DISTANCE : R

/-- The lidar state, mirroring the C++ `Lidar` class fields. -/
structure Lidar (R : Type) where
  frequency : R
  position : Point2d R
  lasers : List R
  min_distance : R
  max_distance : R
  deriving DecidableEq, Repr

/-- The C++ constructor `Lidar::Lidar(float frequency, Point2d* position)`
(robot.cpp lines 138-144): stores frequency and position and fills the
`lasers` array with `N_LASERS` copies of `MAX_DISTANCE`. -/
def Lidar.init (env : Env R) (frequency : R) (position : Point2d R) : Lidar R :=
  { frequency := frequency
    position := position
    lasers := List.replicate env.N_LASERS env.MAX_DISTANCE
    min_distance := env.MIN_DISTANCE
    max_distance := env.MAX_DISTANCE }

/-- The robot state, mirroring the C++ `TurtlebotBurger` fields (inherited
`Circle` center `(xc, yc)` and `radius`, plus its own fields). -/
structure TurtlebotBurger (R : Type) where
  xc : R
  yc : R
  radius : R
  theta : R
  dt : R
  inv_diameter : R
  diameter : R
  name : String
  model : String
  lidar : Lidar R

/-- The C++ constructor `TurtlebotBurger::TurtlebotBurger` (robot.cpp lines
4-16): sets the pose, `inv_diameter = 1/(2*radius)`, `diameter = radius*2`,
the model tag, and builds a lidar positioned at a fresh `Point2d(x, y)`
(a copy of the construction-time position).  The C++ passes an
uninitialized local `float frequency` to the lidar; it is taken here as the
arbitrary parameter `frequency`. -/
def TurtlebotBurger.init (env : Env R) [DivisionRing R] (x y theta radius dt : R)
    (name : String) (frequency : R) : TurtlebotBurger R :=
  { xc := x
    yc := y
    radius := radius
    theta := theta
    dt := dt
    inv_diameter := 1 / (2 * radius)
    diameter := radius * 2
    name := name
    model := "burger"
    lidar := Lidar.init env frequency (Point2d.mk x y) }

/-- The member `TurtlebotBurger::kinematics(float v, float w)` (robot.cpp lines 42-54):
wheel contributions, average displacement, heading rate with the
precomputed `inv_diameter`, midpoint-heading translation, and a normalized
new heading; returns the new pose triple without mutating the robot. -/
def TurtlebotBurger.kinematics [Field R] (env : Env R) (bot : TurtlebotBurger R)
    (v w : R) : R × R × R :=
  let v_left := v + w * bot.radius
  let v_right := v - w * bot.radius
  let dd := (v_left + v_right) * (1 / 2)
  let dth := (v_left - v_right) * bot.inv_diameter
  ( bot.xc + dd * env.cos (bot.theta + dth * (1 / 2)) * bot.dt,
    bot.yc + dd * env.sin (bot.theta + dth * (1 / 2)) * bot.dt,
    env.normalize_angle (bot.theta + dth * bot.dt) )

/-- The member `TurtlebotBurger::move(float v, float w)` (robot.cpp lines 56-64):
computes `kinematics(v, w)` and commits the resulting triple to the pose
fields `xc`, `yc`, `theta`; nothing else is written. -/
def TurtlebotBurger.move [Field R] (env : Env R) (bot : TurtlebotBurger R)
    (v w : R) : TurtlebotBurger R :=
  let new_pose := bot.kinematics env v w
  { bot with xc := new_pose.1, yc := new_pose.2.1, theta := new_pose.2.2 }

/-- Modelled from the spec: the kinematics step exactly as the spec words it,
`v_left = v + w*radius`, `v_right = v - w*radius`, `dd = (v_left+v_right)/2`,
`dtheta = (v_left - v_right)/(2*radius)`, translation at the midpoint heading
and normalized new heading.  Used as the comparison point for the refinement
claim about `TurtlebotBurger.kinematics`. -/
def spec_step [Field R] (env : Env R) (x y theta radius dt v w : R) : R × R × R :=
  let v_left := v + w * radius
  let v_right := v - w * radius
  let dd := (v_left + v_right) / 2
  let dtheta := (v_left - v_right) / (2 * radius)
  ( x + dd * env.cos (theta + dtheta / 2) * dt,
    y + dd * env.sin (theta + dtheta / 2) * dt,
    env.normalize_angle (theta + dtheta * dt) )

/-- The member `Lidar::in_between(float xi, float xm, float xf)` (robot.cpp lines
162-164).  The C++ source is `(xi <= xm <= xf) || (xf <= xm <= xi)`, which
under C++ parsing is `((xi <= xm) <= xf) || ((xf <= xm) <= xi)`: the inner
comparison yields a `bool` that is implicitly converted to `1` or `0` before
the outer `<=` against a `float`.  That chained-comparison semantics is
embedded literally here. -/
def Lidar.in_between [LinearOrderedField R] (ldr : Lidar R) (xi xm xf : R) : Bool :=
  (decide ((if xi ≤ xm then (1 : R) else 0) ≤ xf)) ||
  (decide ((if xf ≤ xm then (1 : R) else 0) ≤ xi))

/-- Modelled from the spec: the intended range test that the spec's design
note re-derives for `in_between` (missing as such from the source, which
contains only the chained-comparison form): `min(xi, xf) <= xm <= max(xi, xf)`. -/
def in_between_intended [LinearOrderedField R] (xi xm xf : R) : Bool :=
  decide (min xi xf ≤ xm) && decide (xm ≤ max xi xf)

/-- The member `Lidar::obstacle_in_sight` (robot.cpp lines 170-173): conjunction of the
two `in_between` tests, applied (as at the call site, robot.cpp lines
113-120) to the two candidate intersection points as bounds and the obstacle
center `(x_obs, y_obs)` as the tested value. -/
def Lidar.obstacle_in_sight [LinearOrderedField R] (ldr : Lidar R) (x_min y_min x_max y_max x_obs y_obs : R) : Bool :=
  ldr.in_between x_min x_obs x_max && ldr.in_between y_min y_obs y_max

/-- The member `Lidar::get_laser_points(float angle, float x, float y, float theta)`
(robot.cpp lines 176-187): the near point at `min_distance` and the far
point at `max_distance` along the ray at the given angle (converted to
radians and offset by the robot heading). -/
def Lidar.get_laser_points [Field R] (env : Env R) (ldr : Lidar R)
    (angle x y theta : R) : R × R × R × R :=
  let angle_rad := angle * env.TO_RAD
  let cos_ := env.cos (angle_rad + theta)
  let sin_ := env.sin (angle_rad + theta)
  ( x + ldr.min_distance * cos_,
    y + ldr.min_distance * sin_,
    x + ldr.max_distance * cos_,
    y + ldr.max_distance * sin_ )

/-- The local variables of `TurtlebotBurger::update_lidar_heavy` (robot.cpp
lines 83-88): the working `Line laser`, and the locals `in_sight`,
`intersection`, `min_distance`, `distance`.  All but `laser` are declared
uninitialized in the C++, so a whole `ScanLocals` value is taken as an
arbitrary input of the scan and `laser` is overwritten with `Line(0,0,0,0)`
at entry. -/
structure ScanLocals (R : Type) where
  laser : Line R
  in_sight : Bool
  intersection : Bool × R × R × R × R
  min_distance : R
  distance : R
  deriving DecidableEq, Repr

/-- The inner per-obstacle loop body of `update_lidar_heavy` (robot.cpp lines
98-131), threading the mutable state (the robot object and the locals):
compute `intersection = obstacle.intersects_line(laser)`; if the found flag
is set, compute `in_sight = obstacle_in_sight(intersection points, obstacle
center)`; if in sight, set `distance` to the distance between the near laser
point and `(0, 0)`.  Nothing else is written. -/
def update_lidar_obstacle_body [LinearOrderedField R]
    (env : Env R) (laser_points : R × R × R × R)
    (s : TurtlebotBurger R × ScanLocals R) (o : RoundObstacle R) :
    TurtlebotBurger R × ScanLocals R :=
  let inter := env.intersects_line o s.2.laser
  let s1 : TurtlebotBurger R × ScanLocals R := (s.1, { s.2 with intersection := inter })
  if inter.1 then
    let sight := s1.1.lidar.obstacle_in_sight
      inter.2.1 inter.2.2.1 inter.2.2.2.1 inter.2.2.2.2 o.xc o.yc
    let s2 : TurtlebotBurger R × ScanLocals R := (s1.1, { s1.2 with in_sight := sight })
    if sight then
      (s2.1, { s2.2 with
        distance := env.distance_between_points laser_points.1 laser_points.2.1 0 0 })
    else s2
  else s1

/-- The per-ray loop body of `update_lidar_heavy` (robot.cpp lines 92-133):
compute the ray's near/far points from the robot's current pose, store them
in the working `laser` line, then fold the per-obstacle body over all round
obstacles. -/
def update_lidar_ray_body [LinearOrderedField R]
    (env : Env R) (round_obstacles : List (RoundObstacle R))
    (s : TurtlebotBurger R × ScanLocals R) (ray : Nat) :
    TurtlebotBurger R × ScanLocals R :=
  let laser_points := s.1.lidar.get_laser_points env (ray : R) s.1.xc s.1.yc s.1.theta
  let s1 : TurtlebotBurger R × ScanLocals R :=
    (s.1, { s.2 with
      laser := Line.mk laser_points.1 laser_points.2.1 laser_points.2.2.1 laser_points.2.2.2 })
  round_obstacles.foldl (update_lidar_obstacle_body env laser_points) s1

/-- The index sequence of a C++ loop `for (int i = a; i < b; i++)`. -/
def cppForRange (a b : Nat) : List Nat := (List.range (b - a)).map (a + ·)

/-- The ray indices actually iterated by `update_lidar_heavy`: the source's
loop header is `for (int ray = 45; ray < 46; ray++)` (robot.cpp line 92),
with the full sweep `for (int ray = 0; ray < lasers.size(); ray++)` present
only as a comment on line 91. -/
def lidarScannedRays : List Nat := cppForRange 45 46

/-- The member `TurtlebotBurger::update_lidar_heavy(std::vector<RoundObstacle>
round_obstacles, std::vector<Line> edges)` (robot.cpp lines 82-135): reset
the working `laser` to `Line(0,0,0,0)`, then fold the per-ray body over the
scanned ray indices.  The returned pair is the robot object (`*this`) after
the call together with the final values of the locals.  The `edges`
parameter is accepted, as in the source, and appears nowhere in the body. -/
def TurtlebotBurger.update_lidar_heavy [LinearOrderedField R]
    (env : Env R) (bot : TurtlebotBurger R)
    (round_obstacles : List (RoundObstacle R)) (edges : List (Line R))
    (locals0 : ScanLocals R) : TurtlebotBurger R × ScanLocals R :=
  let s0 : TurtlebotBurger R × ScanLocals R :=
    (bot, { locals0 with laser := Line.mk 0 0 0 0 })
  lidarScannedRays.foldl (update_lidar_ray_body env round_obstacles) s0

/-- A concrete environment over `ℚ` used for concrete evaluations: `cos` is
the constant `1` and `sin` the constant `0` (the values of the real
functions at angle `0`), `normalize_angle` is the identity (the correct
behavior on already-canonical headings), and the remaining members are
simple placeholders. -/
def envQ : Env ℚ :=
  { cos := fun _ => 1
    sin := fun _ => 0
    normalize_angle := fun t => t
    distance_between_points := fun _ _ _ _ => 0
    intersects_line := fun _ _ => (false, 0, 0, 0, 0)
    TO_RAD := 0
    N_LASERS := 360
    MIN_DISTANCE := 1 / 10
    MAX_DISTANCE := 10 }

/-- A concrete robot over `ℚ`: constructed at the origin with heading `0`,
radius `1`, `dt = 1`. -/
def botQ : TurtlebotBurger ℚ :=
  TurtlebotBurger.init envQ 0 0 0 1 1 "michelangelo" 0

/-- A concrete lidar over `ℚ`. -/
def lidarQ : Lidar ℚ := Lidar.init envQ 0 (Point2d.mk 0 0)

lemma update_lidar_obstacle_body_fst [LinearOrderedField R] (env : Env R)
    (lp : R × R × R × R) (s : TurtlebotBurger R × ScanLocals R)
    (o : RoundObstacle R) :
    (update_lidar_obstacle_body env lp s o).1 = s.1 := by
  simp only [update_lidar_obstacle_body]
  split_ifs <;> rfl

lemma foldl_obstacle_body_fst [LinearOrderedField R] (env : Env R)
    (lp : R × R × R × R) (l : List (RoundObstacle R))
    (s : TurtlebotBurger R × ScanLocals R) :
    (l.foldl (update_lidar_obstacle_body env lp) s).1 = s.1 := by
  induction l generalizing s with
  | nil => rfl
  | cons o t ih => rw [List.foldl_cons, ih, update_lidar_obstacle_body_fst]

lemma update_lidar_ray_body_fst [LinearOrderedField R] (env : Env R)
    (obs : List (RoundObstacle R)) (s : TurtlebotBurger R × ScanLocals R)
    (ray : Nat) :
    (update_lidar_ray_body env obs s ray).1 = s.1 := by
  simp only [update_lidar_ray_body]
  rw [foldl_obstacle_body_fst]

lemma foldl_ray_body_fst [LinearOrderedField R] (env : Env R)
    (obs : List (RoundObstacle R)) (rays : List Nat)
    (s : TurtlebotBurger R × ScanLocals R) :
    (rays.foldl (update_lidar_ray_body env obs) s).1 = s.1 := by
  induction rays generalizing s with
  | nil => rfl
  | cons r t ih => rw [List.foldl_cons, ih, update_lidar_ray_body_fst]

lemma update_lidar_heavy_fst [LinearOrderedField R] (env : Env R)
    (bot : TurtlebotBurger R) (obs : List (RoundObstacle R))
    (edges : List (Line R)) (l0 : ScanLocals R) :
    (bot.update_lidar_heavy env obs edges l0).1 = bot := by
  simp only [TurtlebotBurger.update_lidar_heavy]
  rw [foldl_ray_body_fst]

/-- C1: the claim states that after a sense cycle each range reading equals
the distance to the nearest in-sight intersection (or `max_distance` when
none qualifies).  In fact `update_lidar_heavy` never writes the readings:
for every environment (hence every possible behavior of the missing
intersection and distance routines), every robot, every obstacle set and
every wall set, the `lasers` array after the call is identical to the one
before, so the reading cannot equal the distance to a newly detected
intersection. -/
theorem c1_lidar_readings_never_updated [LinearOrderedField R] (env : Env R)
    (bot : TurtlebotBurger R) (obs : List (RoundObstacle R))
    (edges : List (Line R)) (l0 : ScanLocals R) :
    ((bot.update_lidar_heavy env obs edges l0).1).lidar.lasers
      = bot.lidar.lasers := by
  rw [update_lidar_heavy_fst]

/-- C2: the claim states that every ray index from `0` to `N_LASERS - 1` is
processed in a sense cycle.  The loop of `update_lidar_heavy` iterates the
index sequence of `for (int ray = 45; ray < 46; ray++)`, which is exactly
`[45]`: ray `0` (and every index other than `45`) is skipped. -/
theorem c2_only_ray_45_scanned :
    lidarScannedRays = [45] ∧ (0 : Nat) ∉ lidarScannedRays := by
  constructor
  · rfl
  · decide

/-- C4: the claim states the in-sight test accepts an intersection iff the
intersection point lies between the ray's near-point and far-point bounds on
both axes.  Counter-evaluation: the source's chained-comparison
`in_between 0 5 1` returns `true` although `5` is far outside the range
`[min 0 1, max 0 1]` (the intended test `in_between_intended 0 5 1` is
`false`), and consequently `obstacle_in_sight` with bounds `(0,0)`-`(1,1)`
accepts the point `(5,5)`. -/
theorem c4_in_sight_accepts_out_of_bounds :
    lidarQ.in_between 0 5 1 = true
      ∧ in_between_intended (0 : ℚ) 5 1 = false
      ∧ lidarQ.obstacle_in_sight 0 0 1 1 5 5 = true := by
  refine ⟨?_, ?_, ?_⟩ <;> decide

/-- C5: the claim states both obstacle kinds are tested per ray.  In fact
the wall list (`edges`) is never consulted: the result of a sense cycle is
literally independent of it, so wall obstacles can never influence the
scan, for every environment, robot, obstacle set and pair of wall sets. -/
theorem c5_walls_never_tested [LinearOrderedField R] (env : Env R)
    (bot : TurtlebotBurger R) (obs : List (RoundObstacle R))
    (edges1 edges2 : List (Line R)) (l0 : ScanLocals R) :
    bot.update_lidar_heavy env obs edges1 l0
      = bot.update_lidar_heavy env obs edges2 l0 := rfl

/-- C7: the claim states every one of the `N_LASERS` reading slots holds the
value computed during the cycle (a wholesale recompute).  In fact the whole
robot object — its lidar and all reading slots included — is returned
unchanged by `update_lidar_heavy` for every input: stale values from before
the call persist in every slot. -/
theorem c7_no_slot_recomputed [LinearOrderedField R] (env : Env R)
    (bot : TurtlebotBurger R) (obs : List (RoundObstacle R))
    (edges : List (Line R)) (l0 : ScanLocals R) :
    (bot.update_lidar_heavy env obs edges l0).1 = bot :=
  update_lidar_heavy_fst env bot obs edges l0

/-- C8: the claim states the lidar's stored position equals the robot's
updated position after `move`.  Counter-evaluation over `ℚ`: the robot
constructed at `(0, 0)` moves with `v = 1, w = 0` to `xc = 1`, yet its
lidar's stored position is still the construction-time copy `(0, 0)`. -/
theorem c8_lidar_position_is_stale_snapshot :
    (botQ.move envQ 1 0).xc = 1
      ∧ (botQ.move envQ 1 0).lidar.position = Point2d.mk 0 0
      ∧ (botQ.move envQ 1 0).lidar.position.x ≠ (botQ.move envQ 1 0).xc := by
  refine ⟨?_, ?_, ?_⟩ <;>
    norm_num [botQ, envQ, TurtlebotBurger.move, TurtlebotBurger.kinematics,
      TurtlebotBurger.init, Lidar.init]

/-- C3: for every pose, `radius > 0`, `dt > 0` and commands `v`, `w`, one
kinematics step returns exactly the spec's formula (with the constructor
invariant `inv_diameter = 1/(2*radius)` relating the precomputed field of
the source to the spec's division by `2*radius`). -/
theorem c3_kinematics_matches_spec [LinearOrderedField R] (env : Env R)
    (bot : TurtlebotBurger R) (v w : R) (hr : 0 < bot.radius) (hdt : 0 < bot.dt)
    (hinv : bot.inv_diameter = 1 / (2 * bot.radius)) :
    bot.kinematics env v w
      = spec_step env bot.xc bot.yc bot.theta bot.radius bot.dt v w := by
  obtain ⟨xc, yc, radius, theta, dt, invd, diam, nm, md, ldr⟩ := bot
  simp only [TurtlebotBurger.kinematics, spec_step] at hinv ⊢
  subst hinv
  have harg : theta + (v + w * radius - (v - w * radius)) * (1 / (2 * radius)) * (1 / 2)
      = theta + (v + w * radius - (v - w * radius)) / (2 * radius) / 2 := by ring
  have harg2 : theta + (v + w * radius - (v - w * radius)) * (1 / (2 * radius)) * dt
      = theta + (v + w * radius - (v - w * radius)) / (2 * radius) * dt := by ring
  rw [harg, harg2]
  simp only [Prod.mk.injEq]
  exact ⟨by ring, by ring, trivial⟩

/-- Witness for C3 at the concrete robot `botQ` with commands `v = 2`,
`w = 3`. -/
theorem c3_kinematics_matches_spec_witness :
    ((0 : ℚ) < botQ.radius ∧ (0 : ℚ) < botQ.dt
      ∧ botQ.inv_diameter = 1 / (2 * botQ.radius))
      ∧ botQ.kinematics envQ 2 3
          = spec_step envQ botQ.xc botQ.yc botQ.theta botQ.radius botQ.dt 2 3 := by
  have h1 : (0 : ℚ) < botQ.radius := by norm_num [botQ, TurtlebotBurger.init]
  have h2 : (0 : ℚ) < botQ.dt := by norm_num [botQ, TurtlebotBurger.init]
  have h3 : botQ.inv_diameter = 1 / (2 * botQ.radius) := by
    norm_num [botQ, TurtlebotBurger.init]
  exact ⟨⟨h1, h2, h3⟩, c3_kinematics_matches_spec envQ botQ 2 3 h1 h2 h3⟩

/-- C6: a kinematics step with `v = w = 0` leaves the robot — pose, lidar
and all — unchanged, provided the current heading is canonical (the
normalization function fixes it, which is the spec's Pose invariant), and
hence any number of repeated zero-command ticks leaves the robot (pose and
all lidar readings) unchanged. -/
theorem c6_zero_command_identity [LinearOrderedField R] (env : Env R)
    (bot : TurtlebotBurger R) (hr : 0 < bot.radius) (hdt : 0 < bot.dt)
    (hnorm : env.normalize_angle bot.theta = bot.theta) :
    bot.move env 0 0 = bot
      ∧ ∀ n : Nat, (fun b => TurtlebotBurger.move env b 0 0)^[n] bot = bot := by
  have h1 : bot.move env 0 0 = bot := by
    obtain ⟨xc, yc, radius, theta, dt, invd, diam, nm, md, ldr⟩ := bot
    simp only [TurtlebotBurger.move, TurtlebotBurger.kinematics] at hnorm ⊢
    simp only [TurtlebotBurger.mk.injEq]
    refine ⟨by ring, by ring, trivial, ?_, trivial, trivial, trivial, trivial, trivial, trivial⟩
    have harg : theta + (0 + 0 * radius - (0 - 0 * radius)) * invd * dt = theta := by
      ring
    rw [harg]
    exact hnorm
  exact ⟨h1, fun n => Function.iterate_fixed h1 n⟩

/-- Witness for C6 at the concrete robot `botQ`, iterated five times. -/
theorem c6_zero_command_identity_witness :
    ((0 : ℚ) < botQ.radius ∧ (0 : ℚ) < botQ.dt
      ∧ envQ.normalize_angle botQ.theta = botQ.theta)
      ∧ botQ.move envQ 0 0 = botQ
      ∧ (fun b => TurtlebotBurger.move envQ b 0 0)^[5] botQ = botQ := by
  have h1 : (0 : ℚ) < botQ.radius := by norm_num [botQ, TurtlebotBurger.init]
  have h2 : (0 : ℚ) < botQ.dt := by norm_num [botQ, TurtlebotBurger.init]
  have h3 : envQ.normalize_angle botQ.theta = botQ.theta := rfl
  exact ⟨⟨h1, h2, h3⟩, (c6_zero_command_identity envQ botQ h1 h2 h3).1,
    (c6_zero_command_identity envQ botQ h1 h2 h3).2 5⟩

/-- C9: a kinematics step with `v = 0` and `w ≠ 0` leaves the position
exactly unchanged and sets the heading to the normalization of
`theta + w * dt`. -/
theorem c9_pure_rotation [LinearOrderedField R] (env : Env R)
    (bot : TurtlebotBurger R) (w : R) (hr : 0 < bot.radius) (hdt : 0 < bot.dt)
    (hw : w ≠ 0) (hinv : bot.inv_diameter = 1 / (2 * bot.radius)) :
    (bot.move env 0 w).xc = bot.xc ∧ (bot.move env 0 w).yc = bot.yc
      ∧ (bot.move env 0 w).theta = env.normalize_angle (bot.theta + w * bot.dt) := by
  obtain ⟨xc, yc, radius, theta, dt, invd, diam, nm, md, ldr⟩ := bot
  simp only [TurtlebotBurger.move, TurtlebotBurger.kinematics] at hr hinv ⊢
  subst hinv
  have hr0 : radius ≠ 0 := ne_of_gt hr
  have harg : theta + (0 + w * radius - (0 - w * radius)) * (1 / (2 * radius)) * dt
      = theta + w * dt := by
    field_simp
    ring
  refine ⟨by ring, by ring, ?_⟩
  rw [harg]

/-- Witness for C9 at the concrete robot `botQ` with `w = 3`. -/
theorem c9_pure_rotation_witness :
    ((0 : ℚ) < botQ.radius ∧ (0 : ℚ) < botQ.dt ∧ (3 : ℚ) ≠ 0
      ∧ botQ.inv_diameter = 1 / (2 * botQ.radius))
      ∧ (botQ.move envQ 0 3).xc = botQ.xc ∧ (botQ.move envQ 0 3).yc = botQ.yc
      ∧ (botQ.move envQ 0 3).theta
          = envQ.normalize_angle (botQ.theta + 3 * botQ.dt) := by
  have h1 : (0 : ℚ) < botQ.radius := by norm_num [botQ, TurtlebotBurger.init]
  have h2 : (0 : ℚ) < botQ.dt := by norm_num [botQ, TurtlebotBurger.init]
  have h3 : (3 : ℚ) ≠ 0 := by norm_num
  have h4 : botQ.inv_diameter = 1 / (2 * botQ.radius) := by
    norm_num [botQ, TurtlebotBurger.init]
  exact ⟨⟨h1, h2, h3, h4⟩, c9_pure_rotation envQ botQ 3 h1 h2 h3 h4⟩

/-- C10: `move` writes only the pose fields `xc`, `yc`, `theta`; the radius,
`dt`, diameter, inverse diameter, name, model and the whole lidar are
returned unchanged, for every robot and every command. -/
theorem c10_move_touches_only_pose [LinearOrderedField R] (env : Env R)
    (bot : TurtlebotBurger R) (v w : R) :
    (bot.move env v w).radius = bot.radius ∧ (bot.move env v w).dt = bot.dt
      ∧ (bot.move env v w).diameter = bot.diameter
      ∧ (bot.move env v w).inv_diameter = bot.inv_diameter
      ∧ (bot.move env v w).name = bot.name
      ∧ (bot.move env v w).model = bot.model
      ∧ (bot.move env v w).lidar = bot.lidar :=
  ⟨rfl, rfl, rfl, rfl, rfl, rfl, rfl⟩

end FastTurtle
